import Mathlib

/-!
Verification of the eSIM deactivation engine.

Shallow embedding of the classification-and-deactivation core:
* `core/business_rules.py` — `EsimRange.luhn_valid`, `EsimRange.is_esim`,
  `RetryPolicy.can_retry`, `RetryPolicy.next_delay`;
* `core/esim_rsp_client.py` — `ESIMRSPClient.expire_order` (client-level
  retry loop around the signed request);
* `main.py` — the per-record deactivation state machine of
  `_process_batch` and the per-file success-rate verdict of `_process_file`.

Python strings are `List Char`; Python ints are `Int`/`Nat`; Python floats
carrying exact configuration values are `Rat`; dictionary lookups with
defaults are `Option` getters.  Network effects are abstracted as an
explicit transport function `attempt number → Except errorMessage response`.
-/

/-- Python `str.isdigit` on a single ASCII character: true exactly on
'0'..'9' (code points 48 to 57). -/
def isDigitChar (c : Char) : Bool := decide (48 ≤ c.toNat ∧ c.toNat ≤ 57)

/-- Python `str.isdigit()`: true iff the string is non-empty and all characters
are decimal digits (the empty string is NOT a digit string in Python). -/
def pyIsDigit (s : List Char) : Bool := !s.isEmpty && s.all isDigitChar

/-- Python `str.strip()`: remove leading and trailing whitespace. -/
def pyStrip (s : List Char) : List Char :=
  ((s.dropWhile Char.isWhitespace).reverse.dropWhile Char.isWhitespace).reverse

/-- Python string comparison `a <= b`: lexicographic on code points. -/
def pyStrLe : List Char → List Char → Bool
  | [], _ => true
  | _ :: _, [] => false
  | a :: s, b :: t => if a = b then pyStrLe s t else decide (a < b)

/-- Numeric value of a digit character, Python `int(ch)` for '0'..'9'. -/
def digitVal (c : Char) : Nat := c.toNat - 48

/-- Python `int(s)` for a digit string: decimal value. -/
def digitsToNat (s : List Char) : Nat := s.foldl (fun n c => 10 * n + digitVal c) 0

/-- One digit's contribution inside the Luhn loop of
`EsimRange.luhn_valid` (`core/business_rules.py` lines 47-53): the digit at
0-based index `i` is doubled when `i % 2` equals the parity
`len(num_str) % 2`, and reduced by 9 when the doubled value exceeds 9. -/
def luhnDigit (parity i : Nat) (c : Char) : Nat :=
  let d := digitVal c
  if i % 2 = parity then
    let d2 := 2 * d
    if 9 < d2 then d2 - 9 else d2
  else d

/-- `EsimRange.luhn_valid` (`core/business_rules.py` lines 40-54): reject
non-digit strings, otherwise sum the per-index Luhn contributions with
parity `len % 2` and test divisibility by 10. -/
def luhn_valid (s : List Char) : Bool :=
  if ¬ pyIsDigit s then false
  else (s.enum.foldl (fun total p => total + luhnDigit (s.length % 2) p.1 p.2) 0) % 10 == 0

/-- The configured eSIM ICCID range (`EsimRange`), with the bounds in their
decimal-string form (the source stores Python ints and re-stringifies them
with `str(...)` inside `is_esim`; we carry the string form directly). -/
structure EsimRange where
  start : List Char
  end_ : List Char

/-- `EsimRange.is_esim` (`core/business_rules.py` lines 56-106):
falsy check, strip, digit checks on identifier and bounds, then
same-length lexicographic comparison, else the Luhn-stripping branch for a
one-longer identifier, else numeric fallback comparison. -/
def EsimRange.is_esim (r : EsimRange) (iccid : Option (List Char)) : Bool :=
  match iccid with
  | none => false
  | some raw =>
    if raw.isEmpty then false
    else
      let iccid_s := pyStrip raw
      if ¬ pyIsDigit iccid_s then false
      else
        let start_s := pyStrip r.start
        let end_s := pyStrip r.end_
        if ¬ (pyIsDigit start_s && pyIsDigit end_s) then false
        else if iccid_s.length = start_s.length ∧ start_s.length = end_s.length then
          pyStrLe start_s iccid_s && pyStrLe iccid_s end_s
        else if iccid_s.length = start_s.length + 1 && luhn_valid iccid_s then
          let candidate := iccid_s.dropLast
          pyStrLe start_s candidate && pyStrLe candidate end_s
        else
          decide (digitsToNat start_s ≤ digitsToNat iccid_s ∧
                  digitsToNat iccid_s ≤ digitsToNat end_s)

/-- `RetryPolicy` (`core/business_rules.py` lines 108-133): attempt counts
are Python ints; the delay parameters are carried as exact rationals. -/
structure RetryPolicy where
  max_attempts : Int
  delay_seconds : Rat
  backoff_factor : Rat

/-- `RetryPolicy.can_retry`: `attempt < self.max_attempts`. -/
def RetryPolicy.can_retry (p : RetryPolicy) (attempt : Int) : Bool :=
  decide (attempt < p.max_attempts)

/-- `RetryPolicy.next_delay`: clamp `attempt` to at least 1, then
`delay_seconds * backoff_factor ** (attempt - 1)`. -/
def RetryPolicy.next_delay (p : RetryPolicy) (attempt : Int) : Rat :=
  let a := if attempt ≤ 0 then 1 else attempt
  p.delay_seconds * p.backoff_factor ^ (a - 1).toNat

/-- The `statusCodeData` mapping of a response
(`response.header.functionExecutionStatus.statusCodeData`); each field may
be absent, as each is read with a `.get` default. -/
structure StatusCodeData where
  subjectCode : Option String
  reasonCode : Option String
  message : Option String
deriving DecidableEq

/-- The `functionExecutionStatus` part of the remote response, the only part
inspected by the state machine of `_process_batch` (`main.py` lines 380-397). -/
structure ExecutionStatus where
  status : Option String
  statusCodeData : Option StatusCodeData
deriving DecidableEq

/-- `exec_status.get("status")`. -/
def statusOf (e : ExecutionStatus) : Option String := e.status

/-- `status_data.get('subjectCode', '')` with `status_data = exec_status.get("statusCodeData", {})`. -/
def subjectCodeOf (e : ExecutionStatus) : String :=
  ((e.statusCodeData.getD ⟨none, none, none⟩).subjectCode).getD ""

/-- `status_data.get('reasonCode', '')`. -/
def reasonCodeOf (e : ExecutionStatus) : String :=
  ((e.statusCodeData.getD ⟨none, none, none⟩).reasonCode).getD ""

/-- `status_data.get("message", "Unknown error")`. -/
def messageOf (e : ExecutionStatus) : String :=
  ((e.statusCodeData.getD ⟨none, none, none⟩).message).getD "Unknown error"

/-- `error_code = f"{subject_code}/{reason_code}"` (`main.py` line 396). -/
def errorCodeOf (e : ExecutionStatus) : String :=
  subjectCodeOf e ++ "/" ++ reasonCodeOf e

/-- Python string interpolation of an `Optional[str]`: `None` prints as "None". -/
def pyReprOptStr : Option String → String
  | none => "None"
  | some s => s

/-- The fields of `ProcessingResult` that the per-record state machine of
`_process_batch` writes (timestamps and the raw API response are dropped). -/
structure ProcessingResult where
  iccid : String
  status : String
  success_reason : Option String
  error_message : Option String
  retry_attempts : Nat
deriving DecidableEq

/-- The retry loop of `_process_batch` (`main.py` lines 368-458) for one
record.  `transport attempt` abstracts `self.rsp_client.expire_order(...)`:
`.ok` is a returned response (only its `functionExecutionStatus` part
matters), `.error` is a raised `RSPClientError` with its message.  `fuel`
counts the iterations `range(1, max_attempts + 1)` still available,
`attempt` is the current 1-based attempt.  Returns the final record
together with the number of transport invocations performed. -/
def expireLoop (transport : Nat → Except String ExecutionStatus) (maxA : Nat) :
    Nat → Nat → ProcessingResult → ProcessingResult × Nat
  | 0, _, acc => (acc, 0)
  | fuel + 1, attempt, acc =>
    match transport attempt with
    | .ok resp =>
      let acc1 := { acc with retry_attempts := attempt }
      if statusOf resp = some "Executed-Success" then
        ({ acc1 with status := "SUCCESS", success_reason := some "DEACTIVATED" }, 1)
      else if statusOf resp = some "Failed" then
        let errorCode := errorCodeOf resp
        if errorCode = "8.2.1/3.3" then
          ({ acc1 with status := "SUCCESS", success_reason := some "ALREADY_EXPIRED" }, 1)
        else
          let acc2 := { acc1 with
            error_message := some ("[" ++ errorCode ++ "] " ++ messageOf resp) }
          if maxA ≤ attempt then
            ({ acc2 with status := "FAILED" }, 1)
          else
            let next := expireLoop transport maxA fuel (attempt + 1) acc2
            (next.1, next.2 + 1)
      else
        ({ acc1 with
            status := "FAILED",
            error_message := some ("Unexpected API status: " ++ pyReprOptStr (statusOf resp)) }, 1)
    | .error e =>
      let acc1 := { acc with retry_attempts := attempt }
      if maxA ≤ attempt then
        ({ acc1 with
            status := "FAILED",
            error_message := some ("RSP Client Error: " ++ e) }, 1)
      else
        let next := expireLoop transport maxA fuel (attempt + 1) acc1
        (next.1, next.2 + 1)

/-- One record's pass through `_process_batch`: start from the PENDING
result (`main.py` lines 356-364) and run the retry loop with
`max_attempts` iterations available. -/
def processRecord (transport : Nat → Except String ExecutionStatus) (maxA : Nat)
    (iccid : String) : ProcessingResult × Nat :=
  expireLoop transport maxA maxA 1 ⟨iccid, "PENDING", none, none, 0⟩

/-- The dictionary returned by `ESIMRSPClient.expire_order`
(`core/esim_rsp_client.py` lines 577-612), timestamps dropped. -/
structure ExpireOrderResult where
  iccid : String
  status : String
  attempts : Nat
  http_status : Option Nat
  response : Option ExecutionStatus
  error : Option String
deriving DecidableEq

/-- The `while True` retry loop of `expire_order`
(`core/esim_rsp_client.py` lines 570-612).  `request attempt` abstracts
`self._make_request(...)`; `attempts` counts the attempts already made.
Returns the structured result dictionary and the number of request
invocations performed. -/
def expireOrderGo (request : Nat → Except String ExecutionStatus) (p : RetryPolicy)
    (iccid : String) (attempts : Nat) : ExpireOrderResult × Nat :=
  let a := attempts + 1
  match request a with
  | .ok resp =>
    ({ iccid := iccid, status := "success", attempts := a, http_status := some 200,
       response := some resp, error := none }, 1)
  | .error e =>
    if h : p.can_retry (a : Int) = true then
      let next := expireOrderGo request p iccid a
      (next.1, next.2 + 1)
    else
      ({ iccid := iccid, status := "failed", attempts := a, http_status := none,
         response := none, error := some e }, 1)
termination_by (p.max_attempts - attempts).toNat
decreasing_by
  simp only [RetryPolicy.can_retry, decide_eq_true_eq] at h
  omega

/-- `ESIMRSPClient.expire_order`: enter the retry loop with zero attempts made. -/
def expire_order (request : Nat → Except String ExecutionStatus) (p : RetryPolicy)
    (iccid : String) : ExpireOrderResult × Nat :=
  expireOrderGo request p iccid 0

/-- The per-file verdict of `_process_file` (`main.py` lines 550-560):
count only SUCCESS and FAILED outcomes, and when that count is positive
compare the success rate against the threshold; otherwise the file
trivially passes. -/
def fileVerdict (rs : List ProcessingResult) (threshold : Rat) : Bool :=
  let total_esim := (rs.filter (fun r => r.status == "SUCCESS" || r.status == "FAILED")).length
  let successful := (rs.filter (fun r => r.status == "SUCCESS")).length
  if 0 < total_esim then
    decide (threshold ≤ (successful : Rat) / (total_esim : Rat))
  else true

/-! Helper lemmas about the string primitives. -/

theorem not_whitespace_of_digit (c : Char) (h : isDigitChar c = true) :
    c.isWhitespace = false := by
  simp only [isDigitChar, decide_eq_true_eq] at h
  have hne : ∀ w : Char, (48 ≤ w.toNat ∧ w.toNat ≤ 57 → False) → ¬ c = w :=
    fun w hw hcw => hw (hcw ▸ h)
  rw [Char.isWhitespace]
  simp only [Bool.or_eq_false_iff, decide_eq_false_iff_not]
  exact ⟨⟨⟨hne ' ' (by decide), hne '\t' (by decide)⟩,
    hne '\r' (by decide)⟩, hne '\n' (by decide)⟩

theorem pyIsDigit_ne_nil (s : List Char) (h : pyIsDigit s = true) : s ≠ [] := by
  intro hnil
  subst hnil
  simp [pyIsDigit] at h

theorem dropWhile_ws_of_digits (s : List Char)
    (h : ∀ c ∈ s, isDigitChar c = true) : s.dropWhile Char.isWhitespace = s := by
  cases s with
  | nil => rfl
  | cons a t =>
    rw [List.dropWhile_cons]
    rw [not_whitespace_of_digit a (h a (by simp))]
    simp

theorem pyStrip_of_digits (s : List Char) (h : pyIsDigit s = true) :
    pyStrip s = s := by
  have hall : ∀ c ∈ s, isDigitChar c = true := by
    intro c hc
    have := (Bool.and_eq_true _ _).mp h
    exact List.all_eq_true.mp this.2 c hc
  have hrev : ∀ c ∈ s.reverse, isDigitChar c = true := by
    intro c hc
    exact hall c (List.mem_reverse.mp hc)
  unfold pyStrip
  rw [dropWhile_ws_of_digits s hall, dropWhile_ws_of_digits s.reverse hrev,
    List.reverse_reverse]

/-- C6: `is_esim` is total on all inputs: in this embedding it is a total
function into `Bool`, and every malformed input — `None`, the empty string,
or anything that is not a digit string after stripping — takes a failure
path that returns `false` rather than raising. -/
theorem is_esim_malformed_false (r : EsimRange) :
    r.is_esim none = false ∧ r.is_esim (some []) = false ∧
    ∀ s : List Char, pyIsDigit (pyStrip s) = false → r.is_esim (some s) = false := by
  refine ⟨rfl, rfl, ?_⟩
  intro s h
  simp [EsimRange.is_esim, h]

theorem is_esim_malformed_false_witness :
    EsimRange.is_esim ⟨"89238010000101000000".data, "89238010000101999999".data⟩
      (some "abc".data) = false :=
  (is_esim_malformed_false
    ⟨"89238010000101000000".data, "89238010000101999999".data⟩).2.2
    "abc".data (by decide)

/-- C7: `can_retry` is exactly `attempt < max_attempts` on the 1-based
attempt count, `next_delay` is exactly
`delay_seconds * backoff_factor ^ (attempt - 1)` with the attempt clamped
to at least 1, and the policy `(3, 5.0, 2.0)` yields delays 5, 10, 20 with
`can_retry 2 = true` and `can_retry 3 = false`. -/
theorem retry_policy_contract (p : RetryPolicy) (a : Int) :
    p.can_retry a = decide (a < p.max_attempts) ∧
    p.next_delay a = p.delay_seconds * p.backoff_factor ^ ((max a 1) - 1).toNat ∧
    RetryPolicy.next_delay ⟨3, 5, 2⟩ 1 = 5 ∧
    RetryPolicy.next_delay ⟨3, 5, 2⟩ 2 = 10 ∧
    RetryPolicy.next_delay ⟨3, 5, 2⟩ 3 = 20 ∧
    RetryPolicy.can_retry ⟨3, 5, 2⟩ 2 = true ∧
    RetryPolicy.can_retry ⟨3, 5, 2⟩ 3 = false := by
  have hclamp : (if a ≤ 0 then (1 : Int) else a) = max a 1 := by
    split <;> omega
  refine ⟨rfl, ?_, ?_, ?_, ?_, by decide, by decide⟩
  · unfold RetryPolicy.next_delay
    rw [hclamp]
  · norm_num [RetryPolicy.next_delay]
  · norm_num [RetryPolicy.next_delay]
  · norm_num [RetryPolicy.next_delay]
    norm_num [Int.toNat]

/-! The Luhn checksum: the source's indexed fold equals the specification's
sum over 0-based indices. -/

/-- The specification's per-index Luhn contribution for a string of length
`L = s.length`: digit `d_i` is doubled when `i % 2 == L % 2`, and reduced
by 9 when the doubled value exceeds 9. -/
def luhnSpecTerm (s : List Char) (i : Fin s.length) : Nat :=
  let d := digitVal (s.get i)
  if i.val % 2 = s.length % 2 then (if 9 < 2 * d then 2 * d - 9 else 2 * d) else d

theorem foldl_enumFrom_add (f : Nat → Char → Nat) :
    ∀ (l : List Char) (n init : Nat),
      (List.enumFrom n l).foldl (fun t p => t + f p.1 p.2) init =
        init + ∑ i : Fin l.length, f (n + i) (l.get i) := by
  intro l
  induction l with
  | nil => intro n init; simp
  | cons a t ih =>
    intro n init
    rw [List.enumFrom_cons, List.foldl_cons, ih (n + 1) (init + f n a)]
    show init + f n a + ∑ i : Fin t.length, f (n + 1 + ↑i) (t.get i) =
        init + ∑ i : Fin (t.length + 1), f (n + ↑i) ((a :: t).get i)
    rw [Fin.sum_univ_succ]
    simp only [Fin.val_zero, Nat.add_zero, Fin.val_succ, List.get_cons_zero]
    rw [Nat.add_assoc]
    congr 1
    congr 1
    apply Finset.sum_congr rfl
    intro i _
    have hget : (a :: t).get i.succ = t.get i := rfl
    rw [hget]
    congr 1
    omega

/-- C3: for a digit string, `luhn_valid` holds iff the sum of the
specification's per-index contributions (`i % 2 == L % 2` selects the
doubled positions, doubled values above 9 are reduced by 9) is divisible
by 10; and any string containing a non-digit character is Luhn-invalid. -/
theorem luhn_valid_spec (s : List Char) :
    (pyIsDigit s = true →
      (luhn_valid s = true ↔ (∑ i : Fin s.length, luhnSpecTerm s i) % 10 = 0)) ∧
    ((∃ c ∈ s, isDigitChar c = false) → luhn_valid s = false) := by
  constructor
  · intro hd
    unfold luhn_valid
    rw [if_neg (by simp [hd])]
    rw [List.enum]
    rw [foldl_enumFrom_add (fun i c => luhnDigit (s.length % 2) i c) s 0 0]
    simp only [Nat.zero_add, beq_iff_eq]
    have hterm : ∀ i : Fin s.length,
        luhnDigit (s.length % 2) i.val (s.get i) = luhnSpecTerm s i := by
      intro i
      rfl
    rw [Finset.sum_congr rfl (fun i _ => hterm i)]
  · rintro ⟨c, hc, hcd⟩
    have hall : s.all isDigitChar = false := by
      rw [Bool.eq_false_iff]
      intro hcontra
      rw [List.all_eq_true] at hcontra
      rw [hcontra c hc] at hcd
      simp at hcd
    unfold luhn_valid
    rw [if_pos]
    simp [pyIsDigit, hall]

theorem luhn_valid_spec_witness :
    luhn_valid "059".data = true ∧ luhn_valid "0a".data = false := by
  constructor
  · exact ((luhn_valid_spec "059".data).1 (by decide)).mpr (by decide)
  · exact (luhn_valid_spec "0a".data).2 ⟨'a', by decide, by decide⟩

/-- C5: for a numeric identifier whose length equals that of the (numeric)
configured bounds, `is_esim` is exactly the lexicographic range comparison
`start <= identifier <= end` on strings. -/
theorem is_esim_same_length (r : EsimRange) (s : List Char)
    (hs : pyIsDigit s = true) (hst : pyIsDigit r.start = true)
    (hen : pyIsDigit r.end_ = true)
    (h1 : s.length = r.start.length) (h2 : r.start.length = r.end_.length) :
    r.is_esim (some s) = (pyStrLe r.start s && pyStrLe s r.end_) := by
  have hempty : s.isEmpty = false := by
    cases s with
    | nil => exact absurd rfl (pyIsDigit_ne_nil [] hs)
    | cons a t => rfl
  simp [EsimRange.is_esim, hempty, pyStrip_of_digits s hs,
    pyStrip_of_digits r.start hst, pyStrip_of_digits r.end_ hen,
    hs, hst, hen, h1, h2]

theorem is_esim_same_length_witness :
    EsimRange.is_esim ⟨"89238010000101000000".data, "89238010000101999999".data⟩
      (some "89238010000101567890".data) =
    (pyStrLe "89238010000101000000".data "89238010000101567890".data &&
     pyStrLe "89238010000101567890".data "89238010000101999999".data) :=
  is_esim_same_length ⟨"89238010000101000000".data, "89238010000101999999".data⟩
    "89238010000101567890".data (by decide) (by decide) (by decide) rfl rfl

/-- C4: for a numeric identifier exactly one character longer than the
(numeric, equal-length) configured bounds and passing the Luhn check over
the full string, `is_esim` equals the same-length lexicographic range
comparison applied to the identifier with its final character removed. -/
theorem is_esim_luhn_strip (r : EsimRange) (s : List Char)
    (hs : pyIsDigit s = true) (hst : pyIsDigit r.start = true)
    (hen : pyIsDigit r.end_ = true)
    (hlen : s.length = r.start.length + 1)
    (_hbounds : r.start.length = r.end_.length)
    (hluhn : luhn_valid s = true) :
    r.is_esim (some s) = (pyStrLe r.start s.dropLast && pyStrLe s.dropLast r.end_) := by
  have hempty : s.isEmpty = false := by
    cases s with
    | nil => exact absurd rfl (pyIsDigit_ne_nil [] hs)
    | cons a t => rfl
  simp [EsimRange.is_esim, hempty, pyStrip_of_digits s hs,
    pyStrip_of_digits r.start hst, pyStrip_of_digits r.end_ hen,
    hs, hst, hen, hlen, hluhn]

theorem is_esim_luhn_strip_witness :
    EsimRange.is_esim ⟨"89238010000101000000".data, "89238010000101999999".data⟩
      (some "892380100001015678901".data) =
    (pyStrLe "89238010000101000000".data "892380100001015678901".data.dropLast &&
     pyStrLe "892380100001015678901".data.dropLast "89238010000101999999".data) :=
  is_esim_luhn_strip ⟨"89238010000101000000".data, "89238010000101999999".data⟩
    "892380100001015678901".data (by decide) (by decide) (by decide) rfl rfl (by decide)

/-- Number of outcomes counted by the verdict: those with status SUCCESS
or FAILED (`main.py` line 551). -/
def countedOutcomes (rs : List ProcessingResult) : Nat :=
  rs.countP (fun r => r.status == "SUCCESS" || r.status == "FAILED")

/-- Number of SUCCESS outcomes (`main.py` line 552). -/
def successOutcomes (rs : List ProcessingResult) : Nat :=
  rs.countP (fun r => r.status == "SUCCESS")

/-- C9: the per-file verdict counts only SUCCESS and FAILED outcomes in the
denominator, trivially passes when that count is zero, and otherwise
compares `successes / (successes + failures)` against the threshold;
INVALID/SKIPPED outcomes never influence it; with threshold 0.95, 19
SUCCESS + 1 FAILED passes and 18 SUCCESS + 2 FAILED does not. -/
theorem file_verdict_success_rate (rs : List ProcessingResult) (t : Rat) :
    (fileVerdict rs t =
      (if countedOutcomes rs = 0 then true
       else decide (t ≤ (successOutcomes rs : Rat) / (countedOutcomes rs : Rat)))) ∧
    (fileVerdict rs t =
      fileVerdict (rs.filter (fun r => r.status == "SUCCESS" || r.status == "FAILED")) t) ∧
    (fileVerdict (List.replicate 19 ⟨"", "SUCCESS", none, none, 1⟩ ++
      List.replicate 1 ⟨"", "FAILED", none, none, 3⟩) (95 / 100) = true) ∧
    (fileVerdict (List.replicate 18 ⟨"", "SUCCESS", none, none, 1⟩ ++
      List.replicate 2 ⟨"", "FAILED", none, none, 3⟩) (95 / 100) = false) := by
  refine ⟨?_, ?_, ?_, ?_⟩
  · unfold fileVerdict countedOutcomes successOutcomes
    rw [List.countP_eq_length_filter, List.countP_eq_length_filter]
    rcases Nat.eq_zero_or_pos
        (List.filter (fun r => r.status == "SUCCESS" || r.status == "FAILED") rs).length
        with h | h
    · rw [h]
      simp
    · rw [if_pos h, if_neg (by omega)]
  · unfold fileVerdict
    rw [List.filter_filter, List.filter_filter]
    have hp : (fun (x : ProcessingResult) =>
        (x.status == "SUCCESS" || x.status == "FAILED") &&
          (x.status == "SUCCESS" || x.status == "FAILED")) =
        (fun x => x.status == "SUCCESS" || x.status == "FAILED") := by
      funext x
      exact Bool.and_self _
    have hq : (fun (x : ProcessingResult) =>
        (x.status == "SUCCESS") && (x.status == "SUCCESS" || x.status == "FAILED")) =
        (fun x => x.status == "SUCCESS") := by
      funext x
      cases hx : (x.status == "SUCCESS") <;> simp [hx]
    rw [hp, hq]
  · norm_num [fileVerdict, List.filter_append, List.filter_replicate,
      show (("FAILED" : String) == "SUCCESS") = false from by decide,
      show ¬(("FAILED" : String) = "SUCCESS") from by decide]
  · norm_num [fileVerdict, List.filter_append, List.filter_replicate,
      show (("FAILED" : String) == "SUCCESS") = false from by decide,
      show ¬(("FAILED" : String) = "SUCCESS") from by decide]

/-- C1: when the transport always returns a business failure carrying the
sentinel composite code "8.2.1/3.3", the state machine terminates on the
first attempt with SUCCESS, successReason ALREADY_EXPIRED, attemptsUsed 1,
and exactly one transport invocation (no retry). -/
theorem sentinel_code_already_expired (transport : Nat → Except String ExecutionStatus)
    (maxA : Nat) (iccid : String) (resp : ExecutionStatus)
    (hcall : transport 1 = Except.ok resp)
    (hstatus : statusOf resp = some "Failed")
    (hcode : errorCodeOf resp = "8.2.1/3.3")
    (hmax : 1 ≤ maxA) :
    processRecord transport maxA iccid =
      ({ iccid := iccid, status := "SUCCESS", success_reason := some "ALREADY_EXPIRED",
         error_message := none, retry_attempts := 1 }, 1) := by
  obtain ⟨m, rfl⟩ : ∃ m, maxA = m + 1 := ⟨maxA - 1, by omega⟩
  simp [processRecord, expireLoop, hcall, hstatus, hcode]

theorem sentinel_code_already_expired_witness :
    processRecord (fun _ => Except.ok ⟨some "Failed", some ⟨some "8.2.1", some "3.3", none⟩⟩)
      3 "89238010000101567890" =
      ({ iccid := "89238010000101567890", status := "SUCCESS",
         success_reason := some "ALREADY_EXPIRED",
         error_message := none, retry_attempts := 1 }, 1) :=
  sentinel_code_already_expired
    (fun _ => Except.ok ⟨some "Failed", some ⟨some "8.2.1", some "3.3", none⟩⟩)
    3 "89238010000101567890" ⟨some "Failed", some ⟨some "8.2.1", some "3.3", none⟩⟩
    rfl rfl (by decide) (by decide)

/-- C2: when the transport raises a transport exception on every call and
`max_attempts = 3`, the state machine ends FAILED with attemptsUsed 3 and
the transport is invoked exactly 3 times. -/
theorem transport_exception_failed_three_attempts
    (transport : Nat → Except String ExecutionStatus) (msg : Nat → String)
    (hcall : ∀ k, transport k = Except.error (msg k)) (iccid : String) :
    (processRecord transport 3 iccid).1.status = "FAILED" ∧
    (processRecord transport 3 iccid).1.retry_attempts = 3 ∧
    (processRecord transport 3 iccid).2 = 3 := by
  simp [processRecord, expireLoop, hcall 1, hcall 2, hcall 3]

theorem transport_exception_failed_three_attempts_witness :
    (processRecord (fun _ => Except.error "Connection timeout") 3 "X").1.status = "FAILED" ∧
    (processRecord (fun _ => Except.error "Connection timeout") 3 "X").1.retry_attempts = 3 ∧
    (processRecord (fun _ => Except.error "Connection timeout") 3 "X").2 = 3 :=
  transport_exception_failed_three_attempts (fun _ => Except.error "Connection timeout")
    (fun _ => "Connection timeout") (fun _ => rfl) "X"

/-- C8: when a transport call succeeds but the returned execution status is
absent or unrecognized (neither "Executed-Success" nor "Failed"), the state
machine terminates FAILED on that same attempt with exactly one further
transport invocation, regardless of the attempts the policy still allows. -/
theorem unexpected_status_terminal_failed (transport : Nat → Except String ExecutionStatus)
    (maxA fuel attempt : Nat) (acc : ProcessingResult) (resp : ExecutionStatus)
    (hcall : transport attempt = Except.ok resp)
    (h1 : statusOf resp ≠ some "Executed-Success")
    (h2 : statusOf resp ≠ some "Failed") :
    expireLoop transport maxA (fuel + 1) attempt acc =
      ({ acc with
          status := "FAILED",
          error_message := some ("Unexpected API status: " ++ pyReprOptStr (statusOf resp)),
          retry_attempts := attempt }, 1) := by
  unfold expireLoop
  rw [hcall]
  simp only []
  rw [if_neg h1, if_neg h2]

theorem unexpected_status_terminal_failed_witness :
    expireLoop (fun _ => Except.ok ⟨some "Weird", none⟩) 5 5 1
      ⟨"X", "PENDING", none, none, 0⟩ =
      ({ iccid := "X", status := "FAILED", success_reason := none,
         error_message := some ("Unexpected API status: " ++
           pyReprOptStr (statusOf ⟨some "Weird", none⟩)),
         retry_attempts := 1 }, 1) :=
  unexpected_status_terminal_failed (fun _ => Except.ok ⟨some "Weird", none⟩)
    5 4 1 ⟨"X", "PENDING", none, none, 0⟩ ⟨some "Weird", none⟩ rfl (by decide) (by decide)

/-- C10: `expire_order` never propagates an exception: in this embedding it
is a total function, and for every behaviour of the underlying request it
returns a result whose `status` is "success" or "failed" with `attempts`
at least 1; when retries are exhausted the message of the last exception is
returned in the `error` field. -/
theorem expire_order_never_raises (request : Nat → Except String ExecutionStatus)
    (p : RetryPolicy) (iccid : String) :
    ((expire_order request p iccid).1.status = "success" ∨
     (expire_order request p iccid).1.status = "failed") ∧
    1 ≤ (expire_order request p iccid).1.attempts ∧
    ((expire_order request p iccid).1.status = "failed" →
      ∃ e, request (expire_order request p iccid).1.attempts = Except.error e ∧
        (expire_order request p iccid).1.error = some e) := by
  have key : ∀ (n : Nat) (attempts : Nat), (p.max_attempts - (attempts : Int)).toNat ≤ n →
      ((expireOrderGo request p iccid attempts).1.status = "success" ∨
       (expireOrderGo request p iccid attempts).1.status = "failed") ∧
      attempts + 1 ≤ (expireOrderGo request p iccid attempts).1.attempts ∧
      ((expireOrderGo request p iccid attempts).1.status = "failed" →
        ∃ e, request (expireOrderGo request p iccid attempts).1.attempts = Except.error e ∧
          (expireOrderGo request p iccid attempts).1.error = some e) := by
    intro n
    induction n with
    | zero =>
      intro attempts h
      rw [expireOrderGo]
      split
      next resp heq =>
        exact ⟨Or.inl rfl, le_refl _, fun hcontra => by simp at hcontra⟩
      next e heq =>
        split
        next hcr =>
          exfalso
          simp only [RetryPolicy.can_retry, decide_eq_true_eq] at hcr
          omega
        next hcr =>
          exact ⟨Or.inr rfl, le_refl _, fun _ => ⟨e, heq, rfl⟩⟩
    | succ n ih =>
      intro attempts h
      rw [expireOrderGo]
      split
      next resp heq =>
        exact ⟨Or.inl rfl, le_refl _, fun hcontra => by simp at hcontra⟩
      next e heq =>
        split
        next hcr =>
          have hlt : ((attempts : Int) + 1) < p.max_attempts := by
            simp only [RetryPolicy.can_retry, decide_eq_true_eq] at hcr
            exact_mod_cast hcr
          have hrec := ih (attempts + 1) (by omega)
          exact ⟨hrec.1, le_trans (Nat.le_succ (attempts + 1)) hrec.2.1, hrec.2.2⟩
        next hcr =>
          exact ⟨Or.inr rfl, le_refl _, fun _ => ⟨e, heq, rfl⟩⟩
  have hmain := key (p.max_attempts).toNat 0 (by omega)
  exact ⟨hmain.1, hmain.2.1, hmain.2.2⟩

theorem expire_order_never_raises_witness :
    ((expire_order (fun _ => Except.error "boom") ⟨3, 5, 2⟩ "X").1.status = "success" ∨
     (expire_order (fun _ => Except.error "boom") ⟨3, 5, 2⟩ "X").1.status = "failed") ∧
    1 ≤ (expire_order (fun _ => Except.error "boom") ⟨3, 5, 2⟩ "X").1.attempts ∧
    ((expire_order (fun _ => Except.error "boom") ⟨3, 5, 2⟩ "X").1.status = "failed" →
      ∃ e, (fun _ => Except.error "boom")
          ((expire_order (fun _ => Except.error "boom") ⟨3, 5, 2⟩ "X").1.attempts) =
            (Except.error e : Except String ExecutionStatus) ∧
        (expire_order (fun _ => Except.error "boom") ⟨3, 5, 2⟩ "X").1.error = some e) :=
  expire_order_never_raises (fun _ => Except.error "boom") ⟨3, 5, 2⟩ "X"
